import Mathlib

/- Formal model of the physics and terrain core of the bicycle game
   (src/js/game.js).  Real-number quantities are modelled as rationals.
   Euclidean distances, which the JavaScript code obtains with square roots,
   are compared here in squared form together with a sign condition on the
   bound; for nonnegative quantities the two comparisons are equivalent. -/

namespace MTBGame

/- Constants from src/js/game.js lines 10-40. -/

/-- MAX_SPEED = 3.0 (game.js line 10). -/
def MAX_SPEED : ℚ := 3

/-- SPEED_CAP = 0.6 (game.js line 11). -/
def SPEED_CAP : ℚ := 3 / 5

/-- JUMP_FORCE = 0.5 (game.js line 31). -/
def JUMP_FORCE : ℚ := 1 / 2

/-- GRAVITY = 0.02 (game.js line 32). -/
def GRAVITY : ℚ := 1 / 50

/-- BRAKE_FORCE = 0.2 (game.js line 33). -/
def BRAKE_FORCE : ℚ := 1 / 5

/-- The IEEE-754 double value of Math.PI, as an exact rational:
884279719003555 / 2 ^ 48. -/
def piQ : ℚ := 884279719003555 / 281474976710656

/-- MAX_SAFE_WHEELIE_ANGLE = Math.PI / 6 (game.js line 36). -/
def MAX_SAFE_WHEELIE_ANGLE : ℚ := piQ / 6

/-- CRITICAL_WHEELIE_ANGLE = Math.PI / 3 (game.js line 37). -/
def CRITICAL_WHEELIE_ANGLE : ℚ := piQ / 3

/-- WHEELIE_DIFFICULTY = 1.5 (game.js line 38). -/
def WHEELIE_DIFFICULTY : ℚ := 3 / 2

/-- TWIST_SPEED = 0.2 (game.js line 40). -/
def TWIST_SPEED : ℚ := 1 / 5

/- Terrain model.  The plane geometry is built with
   new THREE.PlaneGeometry(1000, 1000, 200, 200) (game.js line 117), giving a
   grid of (200+1) x (200+1) vertices.  getTerrainHeight (lines 871-926)
   reads the y component of four corner vertices from the flat position
   array (position.array[v * 3 + 1]). -/

/-- terrainSize = 1000 (game.js line 873). -/
def terrainSize : ℚ := 1000

/-- gridSize = 200 (game.js line 874). -/
def gridSize : ℕ := 200

/-- vertexPerRow = gridSize + 1 (game.js line 904). -/
def vertexPerRow : ℕ := gridSize + 1

/-- Number of vertices of the 201 x 201 plane geometry. -/
def numVerts : ℕ := vertexPerRow * vertexPerRow

/-- Reading the stored height of vertex v.  The JavaScript code reads
position.array[v * 3 + 1]; for v beyond the last vertex index this reads past
the end of the array and yields undefined (NaN after arithmetic), modelled
here as none. -/
def heightSample (H : ℕ → ℚ) (v : ℕ) : Option ℚ :=
  if v < numVerts then some (H v) else none

/-- Terrain height query, translated from getTerrainHeight
(game.js lines 871-926).  H is the baked heightfield: H v is the y component
of vertex v of the plane geometry. -/
def getTerrainHeight (H : ℕ → ℚ) (x z : ℚ) : Option ℚ :=
  if x < -(terrainSize / 2) ∨ terrainSize / 2 < x ∨
     z < -(terrainSize / 2) ∨ terrainSize / 2 < z then
    some 0
  else
    let tx := (x + terrainSize / 2) / terrainSize
    let tz := (z + terrainSize / 2) / terrainSize
    let ix := (⌊tx * (gridSize : ℚ)⌋).toNat
    let iz := (⌊tz * (gridSize : ℚ)⌋).toNat
    let cellWidth := terrainSize / (gridSize : ℚ)
    let v1 := iz * vertexPerRow + ix
    let v2 := iz * vertexPerRow + (ix + 1)
    let v3 := (iz + 1) * vertexPerRow + ix
    let v4 := (iz + 1) * vertexPerRow + (ix + 1)
    match heightSample H v1, heightSample H v2, heightSample H v3,
          heightSample H v4 with
    | some h1, some h2, some h3, some h4 =>
      let fx := (x - (-(terrainSize / 2) + (ix : ℚ) * cellWidth)) / cellWidth
      let fz := (z - (-(terrainSize / 2) + (iz : ℚ) * cellWidth)) / cellWidth
      let h12 := h1 * (1 - fx) + h2 * fx
      let h34 := h3 * (1 - fx) + h4 * fx
      some (h12 * (1 - fz) + h34 * fz)
    | _, _, _, _ => none

/-- The bilinear interpolation getTerrainHeight performs once the cell
(ix, iz) has been selected: the same corner reads and the same interpolation
formula, with the cell indices as explicit parameters. -/
def bilinearCell (H : ℕ → ℚ) (ix iz : ℕ) (x z : ℚ) : ℚ :=
  let h1 := H (iz * vertexPerRow + ix)
  let h2 := H (iz * vertexPerRow + (ix + 1))
  let h3 := H ((iz + 1) * vertexPerRow + ix)
  let h4 := H ((iz + 1) * vertexPerRow + (ix + 1))
  let cellWidth := terrainSize / (gridSize : ℚ)
  let fx := (x - (-(terrainSize / 2) + (ix : ℚ) * cellWidth)) / cellWidth
  let fz := (z - (-(terrainSize / 2) + (iz : ℚ) * cellWidth)) / cellWidth
  let h12 := h1 * (1 - fx) + h2 * fx
  let h34 := h3 * (1 - fx) + h4 * fx
  h12 * (1 - fz) + h34 * fz

/- Vehicle physics state machine (game.js lines 584-868, 1368-1586). -/

/-- Held-key input signals sampled for one frame (the keys object,
game.js line 8), plus the two edge-triggered key events whose handlers fire
between frames: Space starting a jump (lines 535-541) and R respawning
(lines 517-521).  The field sKey is the brake key (keys.s); down is the
ArrowDown key, which also drives isWheelieMode (lines 531-534, 569-572). -/
structure Input where
  w : Bool
  sKey : Bool
  left : Bool
  right : Bool
  up : Bool
  down : Bool
  e : Bool
  jump : Bool
  respawnKey : Bool

/-- Obstacle shape tags (userData.type, game.js lines 1089, 1125, 1192,
1237). -/
inductive ObstacleKind where
  | tree
  | rock
  | log
  | ramp
deriving DecidableEq

/-- An obstacle record as queried by the collision detector: planar
position, collision radius, and for logs a direction vector and length
(game.js lines 1088-1094, 1236-1243). -/
structure Obstacle where
  kind : ObstacleKind
  posX : ℚ
  posZ : ℚ
  collisionRadius : ℚ
  dirX : ℚ := 0
  dirZ : ℚ := 0
  length : ℚ := 0

/-- Oracle for the quantities the JavaScript code obtains from irrational
functions or from uncontrolled sources, supplied as inputs so every theorem
holds for all of their values.
dirOf yaw abstracts the forward vector (0,0,-1) rotated about the y axis by
yaw, that is (-sin yaw, -cos yaw) in the xz plane (game.js line 600);
unitVec abstracts THREE.Vector2.normalize (v divided by its length,
game.js lines 1514-1517); atan2Of abstracts Math.atan2 (line 775);
randBalance, randTilt and randRoll are the Math.random() samples drawn this
frame (lines 707, 842, 1533); clockDelta is the value of the second
clock.getDelta() call made inside checkCollisions (line 1401), the elapsed
time between the two clock queries of the frame. -/
structure Oracle where
  dirOf : ℚ → ℚ × ℚ
  unitVec : ℚ → ℚ → ℚ × ℚ
  atan2Of : ℚ → ℚ → ℚ
  randBalance : ℚ
  randTilt : ℚ
  randRoll : ℚ
  clockDelta : ℚ

/-- The mutable simulation state: the bicycle object's position and Euler
rotation together with the global physics variables of game.js lines 9-43.
rotX is the pitch (wheelie) rotation, rotY the yaw, rotZ the lean/roll.
odX, odZ model originalDirection (line 41); targetX, targetZ the active
objective beam position. -/
structure GameState where
  posX : ℚ
  posY : ℚ
  posZ : ℚ
  rotX : ℚ
  rotY : ℚ
  rotZ : ℚ
  gameSpeed : ℚ
  steerAngle : ℚ
  leanAngle : ℚ
  wheelieAngle : ℚ
  isJumping : Bool
  jumpVelocity : ℚ
  isWheelieMode : Bool
  twistAngle : ℚ
  odX : ℚ
  odZ : ℚ
  isWipingOut : Bool
  wipeOutTime : ℚ
  collisionOccurred : Bool
  collisionCooldown : ℚ
  playerScore : ℕ
  targetX : ℚ
  targetZ : ℚ

/-- Static world data consumed by the core: the baked height sampler
(the heightAt collaborator), the obstacle list, the spawn point stored in
window.spawnPosition (game.js lines 1360-1364), the trail starting point the
bicycle is placed on (line 343), and the position the objective beam is
relocated to on pickup (chosen by createObjectiveBeam's random placement
loop, lines 1629-1698, treated as world-generation output). -/
structure Params where
  height : ℚ → ℚ → ℚ
  obstacles : List Obstacle
  spawnX : ℚ
  spawnY : ℚ
  spawnZ : ℚ
  startX : ℚ
  startZ : ℚ
  target0X : ℚ
  target0Z : ℚ
  newTargetX : ℚ
  newTargetZ : ℚ

/-- respawnBicycle (game.js lines 1368-1396): reset the bicycle to the spawn
point, zero the physics variables and the score. -/
def respawnBicycle (P : Params) (s : GameState) : GameState :=
  { s with
    posX := P.spawnX, posY := P.spawnY, posZ := P.spawnZ,
    rotX := 0, rotY := 0, rotZ := 0,
    gameSpeed := 0,
    isJumping := false, jumpVelocity := 0,
    isWheelieMode := false, wheelieAngle := 0,
    steerAngle := 0, leanAngle := 0,
    playerScore := 0 }

/-- Squared distance between two planar points.  The code compares the
Euclidean distance; comparisons below pair this square with a sign condition
on the bound. -/
def planarDistSq (ax az bx bz : ℚ) : ℚ :=
  (ax - bx) * (ax - bx) + (az - bz) * (az - bz)

/-- distanceToLineSegment (game.js lines 1483-1504) in squared form.
The code projects the point onto the segment direction: with
d = lineEnd - lineStart, pa = point - lineStart, L the length of d, the
projection is pa.dot(d) / L.  Its branch conditions projection less-or-equal 0
and projection greater-or-equal L are equivalent to pa.dot(d) (dotp below)
less-or-equal 0 and dotp greater-or-equal L squared (dd).  A zero-length
segment falls into the first branch because Vector2.normalize leaves the
zero vector unchanged, making the projection 0.  The returned perpendicular
distance has square paSq - dotp * dotp / dd. -/
def distToSegSq (px pz ax az bx bz : ℚ) : ℚ :=
  let lx := bx - ax
  let lz := bz - az
  let pax := px - ax
  let paz := pz - az
  let dd := lx * lx + lz * lz
  let dotp := pax * lx + paz * lz
  if dd = 0 then pax * pax + paz * paz
  else if dotp ≤ 0 then pax * pax + paz * paz
  else if dd ≤ dotp then (px - bx) * (px - bx) + (pz - bz) * (pz - bz)
  else pax * pax + paz * paz - dotp * dotp / dd

/-- handleCollision (game.js lines 1507-1586).  Guarded by the
collisionOccurred reentrancy flag; on a real response it arms the 1.5 s
cooldown, pushes the bicycle back along the normalized vector from obstacle
to bicycle, applies the type-specific speed change, tilt and bounce.
The asynchronous 0.5 s setTimeout that clears collisionOccurred is outside
the synchronous frame step and is not part of this transition. -/
def handleCollision (O : Oracle) (ob : Obstacle) (s : GameState) : GameState :=
  if s.collisionOccurred then s
  else
    let s1 := { s with collisionOccurred := true, collisionCooldown := 3 / 2 }
    let pd := O.unitVec (s1.posX - ob.posX) (s1.posZ - ob.posZ)
    match ob.kind with
    | .tree =>
      let s2 := { s1 with
        gameSpeed := 0,
        posX := s1.posX + pd.1 * 3, posZ := s1.posZ + pd.2 * 3,
        rotZ := s1.rotZ + (O.randTilt - 1 / 2) * (1 / 2) }
      if s2.isJumping then s2
      else { s2 with isJumping := true, jumpVelocity := JUMP_FORCE * (4 / 5) }
    | .rock =>
      let s2 := { s1 with
        gameSpeed := s1.gameSpeed * (1 / 10),
        posX := s1.posX + pd.1 * (5 / 2), posZ := s1.posZ + pd.2 * (5 / 2),
        rotZ := s1.rotZ + (O.randTilt - 1 / 2) * (3 / 10) }
      if s2.isJumping then s2
      else { s2 with isJumping := true, jumpVelocity := JUMP_FORCE * (3 / 5) }
    | .log =>
      let s2 := { s1 with
        gameSpeed := s1.gameSpeed * (1 / 5),
        posX := s1.posX + pd.1 * (3 / 2), posZ := s1.posZ + pd.2 * (3 / 2),
        rotX := s1.rotX + 1 / 5 }
      if s2.isJumping then s2
      else { s2 with isJumping := true, jumpVelocity := JUMP_FORCE * (7 / 10) }
    | .ramp => s1

/-- The x coordinate of a log segment's start point, center minus direction
times half the length (game.js lines 1440-1443). -/
def logStartX (ob : Obstacle) : ℚ := ob.posX - ob.dirX * ob.length / 2

/-- The z coordinate of a log segment's start point. -/
def logStartZ (ob : Obstacle) : ℚ := ob.posZ - ob.dirZ * ob.length / 2

/-- The x coordinate of a log segment's end point, center plus direction
times half the length (game.js lines 1444-1447). -/
def logEndX (ob : Obstacle) : ℚ := ob.posX + ob.dirX * ob.length / 2

/-- The z coordinate of a log segment's end point. -/
def logEndZ (ob : Obstacle) : ℚ := ob.posZ + ob.dirZ * ob.length / 2

/-- The projection numerator of distanceToLineSegment: the dot product of
point minus lineStart with lineEnd minus lineStart.  The code's projection
is this value divided by the segment length. -/
def segDot (px pz ax az bx bz : ℚ) : ℚ :=
  (px - ax) * (bx - ax) + (pz - az) * (bz - az)

/-- The obstacle scan of checkCollisions (game.js lines 1410-1479): first
colliding obstacle wins; obstacles farther than 20 units from the bicycle
are skipped; a zero collision radius falls back to 1 (the JavaScript
"|| 1.0" default); ramps are ignored while jumping and merely halve the
speed, without the collision-response path, while grounded.  The returned
Bool is the function's return value. -/
def scanObstacles (O : Oracle) (obs : List Obstacle) (s : GameState) :
    GameState × Bool :=
  match obs with
  | [] => (s, false)
  | ob :: rest =>
    let dSq := planarDistSq s.posX s.posZ ob.posX ob.posZ
    if 400 < dSq then scanObstacles O rest s
    else
      let r := if ob.collisionRadius = 0 then 1 else ob.collisionRadius
      match ob.kind with
      | .tree | .rock =>
        if 0 < 1 + r ∧ dSq < (1 + r) * (1 + r) then (handleCollision O ob s, true)
        else scanObstacles O rest s
      | .log =>
        let dls := distToSegSq s.posX s.posZ (logStartX ob) (logStartZ ob)
          (logEndX ob) (logEndZ ob)
        if 0 < 1 + r ∧ dls < (1 + r) * (1 + r) then (handleCollision O ob s, true)
        else scanObstacles O rest s
      | .ramp =>
        if s.isJumping then scanObstacles O rest s
        else if 0 < 1 + r ∧ dSq < (1 + r) * (1 + r) then
          ({ s with gameSpeed := s.gameSpeed * (1 / 2) }, false)
        else scanObstacles O rest s

/-- checkCollisions (game.js lines 1399-1480).  While the cooldown is
positive it only counts the cooldown down by the clock delta and reports no
collision; otherwise it scans the obstacle list. -/
def checkCollisions (O : Oracle) (obs : List Obstacle) (s : GameState) :
    GameState × Bool :=
  if 0 < s.collisionCooldown then
    ({ s with collisionCooldown := s.collisionCooldown - O.clockDelta }, false)
  else scanObstacles O obs s

/-- updateWipeOutAnimation (game.js lines 822-861): accumulate wipeout time,
play the fall (t below 1), then the tumble (t below 2), then leave the
wipeout state and respawn. -/
def updateWipeOutAnimation (P : Params) (O : Oracle) (dt : ℚ)
    (s : GameState) : GameState :=
  let t := s.wipeOutTime + dt
  if t < 1 then
    let wa := min (s.wheelieAngle + dt * 3) (piQ * (9 / 10))
    let sp := max (s.gameSpeed - dt * 2) 0
    let d := O.dirOf s.rotY
    { s with
      wipeOutTime := t, wheelieAngle := wa, rotX := wa, gameSpeed := sp,
      posX := s.posX + d.1 * (sp * dt * 30),
      posZ := s.posZ + d.2 * (sp * dt * 30) }
  else if t < 2 then
    let s1 := { s with
      wipeOutTime := t,
      rotX := s.rotX + dt * 5,
      rotZ := s.rotZ + dt * (O.randRoll - 1 / 2) * 2 }
    if t < 13 / 10 then { s1 with posY := s1.posY + dt * 5 }
    else { s1 with posY := s1.posY - dt * 10 }
  else
    respawnBicycle P { s with isWipingOut := false, wipeOutTime := 0 }

/-- The uphill/downhill slope factor of game.js lines 620-635: uphill
steepness is clamped at 3 and normalized then cubed; downhill steepness is
the absolute height drop clamped at 4 and normalized, used linearly. -/
def slopeFactorOf (heightDifference : ℚ) : ℚ :=
  if 0 < heightDifference then
    let steepness := min heightDifference 3 / 3
    steepness * steepness * steepness
  else if heightDifference < 0 then
    min |heightDifference| 4 / 4
  else 0

/-- The slope speed multiplier of game.js lines 642-647: up to 95 percent
speed loss uphill, up to 40 percent boost downhill, neutral on flat
ground. -/
def slopeEffectOf (heightDifference : ℚ) : ℚ :=
  if 0 < heightDifference then 1 - slopeFactorOf heightDifference * (95 / 100)
  else if heightDifference < 0 then 1 + slopeFactorOf heightDifference * (4 / 10)
  else 1

/-- The jumping / hill-crest / grounded-translation tail of updateBicycle
(game.js lines 724-815), reached when no wipeout was triggered.
d is the moveDirection computed from the pre-steering yaw (line 600);
heightDifference and farHeightDifference are the slope samples of lines
609 and 617.  While airborne the code integrates gravity, moves along the
stored original direction during a twist and along d otherwise, and lands
when at terrain height with downward velocity, restoring yaw from the stored
direction with Math.atan2.  On the ground a hill crest with speed above 0.3
launches a jump; otherwise steering turns the yaw, the terrain is followed,
and the bicycle advances along the re-computed forward direction.
The quaternion barrel roll only affects the rendered orientation; the model
tracks its twist angle and stored direction, which is what the translation
and landing logic read. -/
def jumpAndMove (P : Params) (O : Oracle) (inp : Input) (dt : ℚ)
    (d : ℚ × ℚ) (heightDifference farHeightDifference : ℚ)
    (s : GameState) : GameState :=
  if s.isJumping then
    let jv := s.jumpVelocity - GRAVITY
    let s1 := { s with jumpVelocity := jv, posY := s.posY + jv }
    let s2 :=
      if inp.e then
        let sa := if s1.twistAngle = 0 then { s1 with odX := d.1, odZ := d.2 } else s1
        let sb := { sa with twistAngle := sa.twistAngle + TWIST_SPEED }
        { sb with
          posX := sb.posX + sb.odX * (sb.gameSpeed * dt * 60),
          posZ := sb.posZ + sb.odZ * (sb.gameSpeed * dt * 60) }
      else
        { s1 with
          posX := s1.posX + d.1 * (s1.gameSpeed * dt * 60),
          posZ := s1.posZ + d.2 * (s1.gameSpeed * dt * 60) }
    let th := P.height s2.posX s2.posZ
    if s2.posY ≤ th + (3 / 5 : ℚ) ∧ s2.jumpVelocity < (0 : ℚ) then
      let s3 := { s2 with isJumping := false, posY := th + 3 / 5, twistAngle := 0 }
      if ¬(s3.odX = (0 : ℚ) ∧ s3.odZ = (0 : ℚ)) then
        { s3 with
          rotY := O.atan2Of (-s3.odX) (-s3.odZ),
          rotZ := s3.leanAngle, rotX := 0,
          odX := 0, odZ := 0 }
      else s3
    else s2
  else
    if 0 < heightDifference ∧ farHeightDifference < -(1 / 2) ∧
       3 / 10 < s.gameSpeed then
      let hillJumpForce := JUMP_FORCE * (s.gameSpeed / MAX_SPEED) *
        max (1 / 2) (min 2 (|farHeightDifference| * 2))
      { s with isJumping := true, jumpVelocity := hillJumpForce }
    else
      let s1 := { s with
        rotY := s.rotY + s.steerAngle * s.gameSpeed,
        rotZ := s.leanAngle,
        rotX := s.wheelieAngle }
      let th := P.height s1.posX s1.posZ
      let s2 := { s1 with posY := th + 3 / 5 }
      let d2 := O.dirOf s2.rotY
      { s2 with
        posX := s2.posX + d2.1 * (s2.gameSpeed * dt * 60),
        posZ := s2.posZ + d2.2 * (s2.gameSpeed * dt * 60) }

/-- The slope sample of game.js lines 602-609: terrain height 1.5 units
ahead of the state position minus the height at the position, with d the
forward vector. -/
def slopeSampleDiff (P : Params) (d : ℚ × ℚ) (s0 : GameState) : ℚ :=
  P.height (s0.posX + d.1 * (3 / 2)) (s0.posZ + d.2 * (3 / 2)) -
    P.height s0.posX s0.posZ

/-- The far slope sample of game.js lines 611-617: height 3 units ahead
minus height 1.5 units ahead. -/
def farSlopeSampleDiff (P : Params) (d : ℚ × ℚ) (s0 : GameState) : ℚ :=
  P.height (s0.posX + d.1 * 3) (s0.posZ + d.2 * 3) -
    P.height (s0.posX + d.1 * (3 / 2)) (s0.posZ + d.2 * (3 / 2))

/-- The speed update of game.js lines 656-673: accelerate toward the
slope-scaled speed cap while W is held, brake while S is held (braking is
weakened on steep downhill), otherwise decay by friction (reduced
downhill). -/
def speedUpdate (inp : Input) (dt heightDifference sp : ℚ) : ℚ :=
  if inp.w then
    let targetSpeed := SPEED_CAP * slopeEffectOf heightDifference
    let accelerationFactor := (8 / 100) * slopeEffectOf heightDifference
    min (sp + dt * accelerationFactor) targetSpeed
  else if inp.sKey then
    let brakingForce :=
      if heightDifference < 0 then
        BRAKE_FORCE * (1 - slopeFactorOf heightDifference * (1 / 2))
      else BRAKE_FORCE
    max (sp - dt * brakingForce) 0
  else
    let frictionFactor : ℚ :=
      if heightDifference < 0 then 5 / 100 else 1 / 10
    max (sp - dt * frictionFactor) 0

/-- The steering update of game.js lines 676-684. -/
def steerUpdate (inp : Input) (dt sa : ℚ) : ℚ :=
  if inp.left then min (sa + dt * (3 / 10)) (12 / 100)
  else if inp.right then max (sa - dt * (3 / 10)) (-(12 / 100))
  else sa * (85 / 100)

/-- The lean update of game.js lines 687-697 (leaning back is suppressed in
wheelie mode, and the upright decay only runs outside wheelie mode). -/
def leanUpdate (inp : Input) (wheelieMode : Bool) (dt la : ℚ) : ℚ :=
  if inp.up then min (la + dt * (2 / 10)) (3 / 10)
  else if inp.down ∧ ¬wheelieMode then max (la - dt * (2 / 10)) (-(3 / 10))
  else if ¬wheelieMode then la * (9 / 10)
  else la

/-- The wheelie increment of game.js lines 700-710: base rate dt * 0.8 plus
a random perturbation scaled by speed and slope difficulty. -/
def wheelieIncrement (O : Oracle) (dt heightDifference sp : ℚ) : ℚ :=
  let speedFactor := min (sp / MAX_SPEED) 1 * WHEELIE_DIFFICULTY
  let slopeFactor2 : ℚ :=
    if 0 < heightDifference then 1 / 2
    else if heightDifference < 0 then 3 / 2 else 1
  dt * (8 / 10) + (O.randBalance - 1 / 2) * (2 / 100) * (speedFactor * slopeFactor2)

/-- The non-wipeout body of updateBicycle (game.js lines 596-818):
collision check first, then slope sampling, speed, steering, lean and
wheelie updates; exceeding the critical wheelie angle starts a wipeout and
returns immediately, otherwise the jump/movement tail runs. -/
def updateBicycleRun (P : Params) (O : Oracle) (inp : Input) (dt : ℚ)
    (s : GameState) : GameState :=
  let s0 := (checkCollisions O P.obstacles s).1
  let d := O.dirOf s0.rotY
  let heightDifference := slopeSampleDiff P d s0
  let farHeightDifference := farSlopeSampleDiff P d s0
  let s1 := { s0 with gameSpeed := speedUpdate inp dt heightDifference s0.gameSpeed }
  let s2 := { s1 with steerAngle := steerUpdate inp dt s1.steerAngle }
  let s3 := { s2 with leanAngle := leanUpdate inp s2.isWheelieMode dt s2.leanAngle }
  if s3.isWheelieMode then
    let wa := s3.wheelieAngle + wheelieIncrement O dt heightDifference s3.gameSpeed
    let s4 := { s3 with wheelieAngle := wa }
    if CRITICAL_WHEELIE_ANGLE < wa then
      { s4 with isWipingOut := true, wipeOutTime := 0 }
    else
      jumpAndMove P O inp dt d heightDifference farHeightDifference s4
  else
    let recoveryRate : ℚ :=
      if MAX_SAFE_WHEELIE_ANGLE < s3.wheelieAngle then 6 / 10 else 12 / 10
    let s4 := { s3 with wheelieAngle := max (s3.wheelieAngle - dt * recoveryRate) 0 }
    jumpAndMove P O inp dt d heightDifference farHeightDifference s4

/-- updateBicycle (game.js lines 584-819).  During a wipeout only the
wipeout animation advances.  Otherwise the frame body runs; the second
component records the bicycle position that checkCollisions read this frame
(none when the collision check was skipped). -/
def updateBicycle (P : Params) (O : Oracle) (inp : Input) (dt : ℚ)
    (s : GameState) : GameState × Option (ℚ × ℚ) :=
  if s.isWipingOut then (updateWipeOutAnimation P O dt s, none)
  else (updateBicycleRun P O inp dt s, some (s.posX, s.posZ))

/-- checkObjectiveCollision and collectObjective (game.js lines 1795-1833):
within 5 units of the objective beam the score increments and the beam is
relocated. -/
def checkObjectiveCollision (P : Params) (s : GameState) : GameState :=
  if planarDistSq s.posX s.posZ s.targetX s.targetZ < 25 then
    { s with
      playerScore := s.playerScore + 1,
      targetX := P.newTargetX, targetZ := P.newTargetZ }
  else s

/-- What one frame records about the order of operations: the position the
collision detector read (none when the check was skipped during a wipeout)
and the position the objective tracker read. -/
structure FrameLog where
  collisionCheckPos : Option (ℚ × ℚ)
  objectiveCheckPos : ℚ × ℚ

/-- Key-handler effects sampled at the frame boundary: isWheelieMode
mirrors the ArrowDown key (game.js lines 531-534, 569-572); Space starts a
jump when not already jumping (lines 535-541); R respawns (lines
517-521). -/
def preFrame (P : Params) (inp : Input) (s : GameState) : GameState :=
  let sa := { s with isWheelieMode := inp.down }
  let sb :=
    if inp.jump ∧ ¬sa.isJumping then
      { sa with isJumping := true, jumpVelocity := JUMP_FORCE }
    else sa
  if inp.respawnKey then respawnBicycle P sb else sb

/-- One frame of the animation loop (animate, game.js lines 929-948):
key-handler effects sampled at the frame boundary, then updateBicycle, then
the objective pickup check. -/
def animateFrame (P : Params) (O : Oracle) (inp : Input) (dt : ℚ)
    (s : GameState) : GameState × FrameLog :=
  let sc := preFrame P inp s
  let r := updateBicycle P O inp dt sc
  let s2 := checkObjectiveCollision P r.1
  (s2, ⟨r.2, (r.1.posX, r.1.posZ)⟩)

/-- The per-frame inputs of one simulated frame: the oracle values, the held
keys and the frame clock delta. -/
structure Frame where
  oracle : Oracle
  input : Input
  dt : ℚ

/-- Run a sequence of frames from a state. -/
def runFrames (P : Params) (steps : List Frame) (s : GameState) : GameState :=
  steps.foldl (fun acc f => (animateFrame P f.oracle f.input f.dt acc).1) s

/-- The initial state: the bicycle is placed at the start of the main trail
with zeroed physics variables (game.js lines 9-43, 341-343, 429-430). -/
def initialState (P : Params) : GameState :=
  { posX := P.startX, posY := 0, posZ := P.startZ,
    rotX := 0, rotY := 0, rotZ := 0,
    gameSpeed := 0, steerAngle := 0, leanAngle := 0, wheelieAngle := 0,
    isJumping := false, jumpVelocity := 0,
    isWheelieMode := false, twistAngle := 0, odX := 0, odZ := 0,
    isWipingOut := false, wipeOutTime := 0,
    collisionOccurred := false, collisionCooldown := 0,
    playerScore := 0, targetX := P.target0X, targetZ := P.target0Z }

/- Concrete fixtures used to instantiate theorems on explicit inputs. -/

/-- A concrete oracle: yaw 0 gives the forward vector (0, -1); the random
samples are 1/2 and the inner clock delta 0. -/
def oracleA : Oracle :=
  ⟨fun _ => (0, -1), fun _ _ => (0, 0), fun _ _ => 0, 1 / 2, 1 / 2, 1 / 2, 0⟩

/-- No keys held. -/
def inputA : Input :=
  ⟨false, false, false, false, false, false, false, false, false⟩

/-- A concrete world: flat terrain, no obstacles, spawn and start at the
origin, objective far away at (100, 100). -/
def paramsA : Params :=
  ⟨fun _ _ => 0, [], 0, 0, 0, 0, 0, 100, 100, 100, 100⟩

/-- A concrete rolling state: the initial state moving at speed 1/2. -/
def stateA : GameState :=
  { initialState paramsA with gameSpeed := 1 / 2 }

/-- A concrete mid-wipeout state: 1.9 s into the wipeout with speed 1/4 and
score 7. -/
def stateWipe : GameState :=
  { initialState paramsA with
    isWipingOut := true, wipeOutTime := 19 / 10,
    gameSpeed := 1 / 4, playerScore := 7 }

/-- A concrete tree obstacle one unit in front of the origin. -/
def treeA : Obstacle :=
  { kind := .tree, posX := 0, posZ := 1, collisionRadius := 1 }

/-- A concrete log obstacle: centered at the origin, direction (1, 0),
length 4, collision radius 1/2. -/
def logA : Obstacle :=
  { kind := .log, posX := 0, posZ := 0, collisionRadius := 1 / 2,
    dirX := 1, dirZ := 0, length := 4 }

/-- A state at the perpendicular foot of logA, one unit off its axis. -/
def stateLogHit : GameState :=
  { initialState paramsA with posZ := 1 }

/-- A state beyond the start endpoint of logA, two units past it along the
axis, inside the bounding circle of the midpoint but clear of the
endpoint. -/
def stateLogMiss : GameState :=
  { initialState paramsA with posX := -4 }

/- Preservation lemmas: fields the collision and movement phases leave
untouched. -/

theorem handleCollision_wheelieAngle (O : Oracle) (ob : Obstacle) (s : GameState) :
    (handleCollision O ob s).wheelieAngle = s.wheelieAngle := by
  unfold handleCollision
  dsimp only
  repeat' split
  all_goals rfl

theorem handleCollision_isWheelieMode (O : Oracle) (ob : Obstacle) (s : GameState) :
    (handleCollision O ob s).isWheelieMode = s.isWheelieMode := by
  unfold handleCollision
  dsimp only
  repeat' split
  all_goals rfl

theorem handleCollision_isWipingOut (O : Oracle) (ob : Obstacle) (s : GameState) :
    (handleCollision O ob s).isWipingOut = s.isWipingOut := by
  unfold handleCollision
  dsimp only
  repeat' split
  all_goals rfl

theorem handleCollision_gameSpeed_bounds (O : Oracle) (ob : Obstacle)
    (s : GameState) (h0 : 0 ≤ s.gameSpeed) :
    0 ≤ (handleCollision O ob s).gameSpeed ∧
    (handleCollision O ob s).gameSpeed ≤ s.gameSpeed := by
  unfold handleCollision
  dsimp only
  repeat' split
  all_goals constructor <;> dsimp only <;> linarith

theorem scanObstacles_wheelieAngle (O : Oracle) (obs : List Obstacle)
    (s : GameState) :
    (scanObstacles O obs s).1.wheelieAngle = s.wheelieAngle := by
  induction obs with
  | nil => rfl
  | cons ob rest ih =>
    unfold scanObstacles
    dsimp only
    repeat' split
    all_goals first
      | exact ih
      | exact handleCollision_wheelieAngle O ob s
      | rfl

theorem scanObstacles_isWheelieMode (O : Oracle) (obs : List Obstacle)
    (s : GameState) :
    (scanObstacles O obs s).1.isWheelieMode = s.isWheelieMode := by
  induction obs with
  | nil => rfl
  | cons ob rest ih =>
    unfold scanObstacles
    dsimp only
    repeat' split
    all_goals first
      | exact ih
      | exact handleCollision_isWheelieMode O ob s
      | rfl

theorem scanObstacles_isWipingOut (O : Oracle) (obs : List Obstacle)
    (s : GameState) :
    (scanObstacles O obs s).1.isWipingOut = s.isWipingOut := by
  induction obs with
  | nil => rfl
  | cons ob rest ih =>
    unfold scanObstacles
    dsimp only
    repeat' split
    all_goals first
      | exact ih
      | exact handleCollision_isWipingOut O ob s
      | rfl

theorem scanObstacles_gameSpeed_bounds (O : Oracle) (obs : List Obstacle)
    (s : GameState) (h0 : 0 ≤ s.gameSpeed) :
    0 ≤ (scanObstacles O obs s).1.gameSpeed ∧
    (scanObstacles O obs s).1.gameSpeed ≤ s.gameSpeed := by
  induction obs with
  | nil => exact ⟨h0, le_refl _⟩
  | cons ob rest ih =>
    unfold scanObstacles
    dsimp only
    repeat' split
    all_goals first
      | exact ih
      | exact handleCollision_gameSpeed_bounds O ob s h0
      | (constructor <;> dsimp only <;> linarith)

theorem checkCollisions_wheelieAngle (O : Oracle) (obs : List Obstacle)
    (s : GameState) :
    (checkCollisions O obs s).1.wheelieAngle = s.wheelieAngle := by
  unfold checkCollisions
  split
  · rfl
  · exact scanObstacles_wheelieAngle O obs s

theorem checkCollisions_isWheelieMode (O : Oracle) (obs : List Obstacle)
    (s : GameState) :
    (checkCollisions O obs s).1.isWheelieMode = s.isWheelieMode := by
  unfold checkCollisions
  split
  · rfl
  · exact scanObstacles_isWheelieMode O obs s

theorem checkCollisions_isWipingOut (O : Oracle) (obs : List Obstacle)
    (s : GameState) :
    (checkCollisions O obs s).1.isWipingOut = s.isWipingOut := by
  unfold checkCollisions
  split
  · rfl
  · exact scanObstacles_isWipingOut O obs s

theorem checkCollisions_gameSpeed_bounds (O : Oracle) (obs : List Obstacle)
    (s : GameState) (h0 : 0 ≤ s.gameSpeed) :
    0 ≤ (checkCollisions O obs s).1.gameSpeed ∧
    (checkCollisions O obs s).1.gameSpeed ≤ s.gameSpeed := by
  unfold checkCollisions
  split
  · exact ⟨h0, le_refl _⟩
  · exact scanObstacles_gameSpeed_bounds O obs s h0

theorem jumpAndMove_wheelieAngle (P : Params) (O : Oracle) (inp : Input)
    (dt : ℚ) (d : ℚ × ℚ) (hd fhd : ℚ) (s : GameState) :
    (jumpAndMove P O inp dt d hd fhd s).wheelieAngle = s.wheelieAngle := by
  unfold jumpAndMove
  dsimp only
  repeat' split
  all_goals rfl

theorem jumpAndMove_isWipingOut (P : Params) (O : Oracle) (inp : Input)
    (dt : ℚ) (d : ℚ × ℚ) (hd fhd : ℚ) (s : GameState) :
    (jumpAndMove P O inp dt d hd fhd s).isWipingOut = s.isWipingOut := by
  unfold jumpAndMove
  dsimp only
  repeat' split
  all_goals rfl

theorem jumpAndMove_gameSpeed (P : Params) (O : Oracle) (inp : Input)
    (dt : ℚ) (d : ℚ × ℚ) (hd fhd : ℚ) (s : GameState) :
    (jumpAndMove P O inp dt d hd fhd s).gameSpeed = s.gameSpeed := by
  unfold jumpAndMove
  dsimp only
  repeat' split
  all_goals rfl

theorem jumpAndMove_playerScore (P : Params) (O : Oracle) (inp : Input)
    (dt : ℚ) (d : ℚ × ℚ) (hd fhd : ℚ) (s : GameState) :
    (jumpAndMove P O inp dt d hd fhd s).playerScore = s.playerScore := by
  unfold jumpAndMove
  dsimp only
  repeat' split
  all_goals rfl

theorem slopeFactorOf_bounds (hd : ℚ) :
    0 ≤ slopeFactorOf hd ∧ slopeFactorOf hd ≤ 1 := by
  unfold slopeFactorOf
  split
  · rename_i h
    have h1 : 0 ≤ min hd 3 / 3 := by positivity
    have h2 : min hd 3 / 3 ≤ 1 := by
      have := min_le_right hd 3
      linarith
    constructor <;> nlinarith
  · split
    · rename_i h1 h2
      have h3 : 0 ≤ |hd| := abs_nonneg hd
      have h4 : min |hd| 4 ≤ 4 := min_le_right _ _
      have h5 : 0 ≤ min |hd| 4 := le_min h3 (by norm_num)
      constructor <;> linarith
    · norm_num

theorem slopeEffectOf_bounds (hd : ℚ) :
    1 / 20 ≤ slopeEffectOf hd ∧ slopeEffectOf hd ≤ 7 / 5 := by
  have hb := slopeFactorOf_bounds hd
  unfold slopeEffectOf
  split
  · constructor <;> nlinarith [hb.1, hb.2]
  · split
    · constructor <;> nlinarith [hb.1, hb.2]
    · norm_num

theorem respawnBicycle_gameSpeed (P : Params) (s : GameState) :
    (respawnBicycle P s).gameSpeed = 0 := rfl

theorem updateWipeOutAnimation_gameSpeed_bounds (P : Params) (O : Oracle)
    (dt : ℚ) (s : GameState) (hdt : 0 ≤ dt) (h0 : 0 ≤ s.gameSpeed) :
    0 ≤ (updateWipeOutAnimation P O dt s).gameSpeed ∧
    (updateWipeOutAnimation P O dt s).gameSpeed ≤ s.gameSpeed := by
  unfold updateWipeOutAnimation
  dsimp only
  repeat' split
  all_goals dsimp only [respawnBicycle]
  all_goals constructor
  all_goals first
    | exact le_max_right _ _
    | exact h0
    | linarith
    | exact max_le (by linarith) h0

theorem checkObjectiveCollision_gameSpeed (P : Params) (s : GameState) :
    (checkObjectiveCollision P s).gameSpeed = s.gameSpeed := by
  unfold checkObjectiveCollision
  split <;> rfl

theorem speedUpdate_bounds (inp : Input) (dt hd sp : ℚ) (hdt : 0 ≤ dt)
    (h0 : 0 ≤ sp) (h1 : sp ≤ 21 / 25) :
    0 ≤ speedUpdate inp dt hd sp ∧ speedUpdate inp dt hd sp ≤ 21 / 25 := by
  have hse := slopeEffectOf_bounds hd
  have hsf := slopeFactorOf_bounds hd
  have hp1 : 0 ≤ dt * ((8 / 100) * slopeEffectOf hd) := by
    apply mul_nonneg hdt
    nlinarith [hse.1]
  have hp2 : 0 ≤ dt * (BRAKE_FORCE * (1 - slopeFactorOf hd * (1 / 2))) := by
    apply mul_nonneg hdt
    unfold BRAKE_FORCE
    nlinarith [hsf.2]
  have hp3 : 0 ≤ dt * BRAKE_FORCE := by
    apply mul_nonneg hdt
    unfold BRAKE_FORCE
    norm_num
  have hp4 : 0 ≤ dt * (5 / 100 : ℚ) := by positivity
  have hp5 : 0 ≤ dt * (1 / 10 : ℚ) := by positivity
  unfold speedUpdate
  dsimp only
  split_ifs
  · exact ⟨le_min (by linarith) (by unfold SPEED_CAP; nlinarith [hse.1]),
      le_trans (min_le_right _ _) (by unfold SPEED_CAP; nlinarith [hse.2])⟩
  · exact ⟨le_max_right _ _, max_le (by linarith) (by norm_num)⟩
  · exact ⟨le_max_right _ _, max_le (by linarith) (by norm_num)⟩
  · exact ⟨le_max_right _ _, max_le (by linarith) (by norm_num)⟩
  · exact ⟨le_max_right _ _, max_le (by linarith) (by norm_num)⟩

theorem updateBicycleRun_gameSpeed (P : Params) (O : Oracle) (inp : Input)
    (dt : ℚ) (s : GameState) :
    (updateBicycleRun P O inp dt s).gameSpeed =
      speedUpdate inp dt
        (slopeSampleDiff P (O.dirOf (checkCollisions O P.obstacles s).1.rotY)
          (checkCollisions O P.obstacles s).1)
        (checkCollisions O P.obstacles s).1.gameSpeed := by
  unfold updateBicycleRun
  dsimp only
  repeat' split
  all_goals first | rfl | rw [jumpAndMove_gameSpeed]

theorem updateBicycleRun_gameSpeed_bounds (P : Params) (O : Oracle)
    (inp : Input) (dt : ℚ) (s : GameState) (hdt : 0 ≤ dt)
    (h0 : 0 ≤ s.gameSpeed) (h1 : s.gameSpeed ≤ 21 / 25) :
    0 ≤ (updateBicycleRun P O inp dt s).gameSpeed ∧
    (updateBicycleRun P O inp dt s).gameSpeed ≤ 21 / 25 := by
  rw [updateBicycleRun_gameSpeed]
  have hc := checkCollisions_gameSpeed_bounds O P.obstacles s h0
  exact speedUpdate_bounds inp dt _ _ hdt hc.1 (le_trans hc.2 h1)

theorem preFrame_gameSpeed_bounds (P : Params) (inp : Input) (s : GameState)
    (h0 : 0 ≤ s.gameSpeed) (h1 : s.gameSpeed ≤ 21 / 25) :
    0 ≤ (preFrame P inp s).gameSpeed ∧ (preFrame P inp s).gameSpeed ≤ 21 / 25 := by
  unfold preFrame
  dsimp only
  repeat' split
  all_goals dsimp only [respawnBicycle]
  all_goals constructor
  all_goals first | exact h0 | exact h1 | norm_num

theorem updateBicycle_gameSpeed_bounds (P : Params) (O : Oracle) (inp : Input)
    (dt : ℚ) (s : GameState) (hdt : 0 ≤ dt)
    (h0 : 0 ≤ s.gameSpeed) (h1 : s.gameSpeed ≤ 21 / 25) :
    0 ≤ (updateBicycle P O inp dt s).1.gameSpeed ∧
    (updateBicycle P O inp dt s).1.gameSpeed ≤ 21 / 25 := by
  unfold updateBicycle
  split
  · dsimp only
    have h := updateWipeOutAnimation_gameSpeed_bounds P O dt s hdt h0
    exact ⟨h.1, le_trans h.2 h1⟩
  · exact updateBicycleRun_gameSpeed_bounds P O inp dt s hdt h0 h1

theorem animateFrame_gameSpeed_bounds (P : Params) (O : Oracle) (inp : Input)
    (dt : ℚ) (s : GameState) (hdt : 0 ≤ dt)
    (h0 : 0 ≤ s.gameSpeed) (h1 : s.gameSpeed ≤ 21 / 25) :
    0 ≤ (animateFrame P O inp dt s).1.gameSpeed ∧
    (animateFrame P O inp dt s).1.gameSpeed ≤ 21 / 25 := by
  show 0 ≤ (checkObjectiveCollision P
      (updateBicycle P O inp dt (preFrame P inp s)).1).gameSpeed ∧
    (checkObjectiveCollision P
      (updateBicycle P O inp dt (preFrame P inp s)).1).gameSpeed ≤ 21 / 25
  rw [checkObjectiveCollision_gameSpeed]
  have hp := preFrame_gameSpeed_bounds P inp s h0 h1
  exact updateBicycle_gameSpeed_bounds P O inp dt _ hdt hp.1 hp.2

theorem runFrames_gameSpeed_bounds (P : Params) (steps : List Frame)
    (s : GameState) (hdt : ∀ f ∈ steps, 0 ≤ f.dt)
    (h0 : 0 ≤ s.gameSpeed) (h1 : s.gameSpeed ≤ 21 / 25) :
    0 ≤ (runFrames P steps s).gameSpeed ∧
    (runFrames P steps s).gameSpeed ≤ 21 / 25 := by
  induction steps generalizing s with
  | nil => exact ⟨h0, h1⟩
  | cons f rest ih =>
    have hf : 0 ≤ f.dt := hdt f (List.mem_cons_self f rest)
    have hrest : ∀ g ∈ rest, 0 ≤ g.dt := fun g hg => hdt g (List.mem_cons_of_mem f hg)
    have hstep := animateFrame_gameSpeed_bounds P f.oracle f.input f.dt s hf h0 h1
    exact ih _ hrest hstep.1 hstep.2

/-- C2: for every world, every sequence of per-frame inputs and
non-negative frame deltas, starting from the initial state, the forward
speed gameSpeed stays within the interval from 0 to MAX_SPEED = 3 after
every frame, through acceleration, braking, friction, slope effects,
collision responses, ramp contact and wipeout deceleration. -/
theorem gameSpeed_in_bounds (P : Params) (steps : List Frame)
    (hdt : ∀ f ∈ steps, 0 ≤ f.dt) :
    0 ≤ (runFrames P steps (initialState P)).gameSpeed ∧
    (runFrames P steps (initialState P)).gameSpeed ≤ MAX_SPEED := by
  have h := runFrames_gameSpeed_bounds P steps (initialState P) hdt
    (le_refl 0) (by show (0 : ℚ) ≤ 21 / 25; norm_num)
  exact ⟨h.1, le_trans h.2 (by unfold MAX_SPEED; norm_num)⟩

/-- Witness for C2 at a concrete run: one frame of acceleration on flat
ground from the initial state. -/
theorem gameSpeed_in_bounds_witness :
    0 ≤ (runFrames paramsA [⟨oracleA, { inputA with w := true }, 1⟩]
      (initialState paramsA)).gameSpeed ∧
    (runFrames paramsA [⟨oracleA, { inputA with w := true }, 1⟩]
      (initialState paramsA)).gameSpeed ≤ MAX_SPEED :=
  gameSpeed_in_bounds paramsA [⟨oracleA, { inputA with w := true }, 1⟩]
    (by intro f hf; rw [List.mem_singleton] at hf; subst hf; norm_num)

/-- C10: in every reachable state the forward speed never exceeds
SPEED_CAP * 1.4 = 0.84, far below the documented MAX_SPEED of 3:
acceleration drives the speed toward SPEED_CAP times the slope multiplier,
the multiplier is bounded by 1.4, and every other speed update only
decreases the speed or leaves it unchanged. -/
theorem gameSpeed_capped (P : Params) (steps : List Frame)
    (hdt : ∀ f ∈ steps, 0 ≤ f.dt) :
    (runFrames P steps (initialState P)).gameSpeed ≤ SPEED_CAP * (7 / 5) ∧
    ∀ hd : ℚ, slopeEffectOf hd ≤ 7 / 5 := by
  constructor
  · have h := runFrames_gameSpeed_bounds P steps (initialState P) hdt
      (le_refl 0) (by show (0 : ℚ) ≤ 21 / 25; norm_num)
    exact le_trans h.2 (by unfold SPEED_CAP; norm_num)
  · exact fun hd => (slopeEffectOf_bounds hd).2

/-- Witness for C10 at a concrete run: one accelerating frame. -/
theorem gameSpeed_capped_witness :
    (runFrames paramsA [⟨oracleA, { inputA with w := true }, 1⟩]
      (initialState paramsA)).gameSpeed ≤ SPEED_CAP * (7 / 5) ∧
    ∀ hd : ℚ, slopeEffectOf hd ≤ 7 / 5 :=
  gameSpeed_capped paramsA [⟨oracleA, { inputA with w := true }, 1⟩]
    (by intro f hf; rw [List.mem_singleton] at hf; subst hf; norm_num)

/-- C4: for every heightfield and every coordinate pair outside the
terrain extent (absolute value beyond 500 on either axis), the terrain
height query returns exactly 0. -/
theorem terrain_height_outside_zero (H : ℕ → ℚ) (x z : ℚ)
    (h : 500 < |x| ∨ 500 < |z|) :
    getTerrainHeight H x z = some 0 := by
  unfold getTerrainHeight
  rw [if_pos]
  rcases h with h | h
  · rcases lt_abs.mp h with h1 | h1
    · right; left; unfold terrainSize; linarith
    · left; unfold terrainSize; linarith
  · rcases lt_abs.mp h with h1 | h1
    · right; right; right; unfold terrainSize; linarith
    · right; right; left; unfold terrainSize; linarith

/-- Witness for C4: the query at (501, 0) returns 0. -/
theorem terrain_height_outside_zero_witness :
    getTerrainHeight (fun v => (v : ℚ)) 501 0 = some 0 :=
  terrain_height_outside_zero (fun v => (v : ℚ)) 501 0
    (Or.inl (by norm_num))

/-- C5 fails on the code: the cell index is the raw floor of the fractional
coordinate with no clamp, so at the point (500, 500), which lies on the last
grid line and passes the bounds check, the computed corner indices run past
the last vertex of the 201 x 201 sample array and the read is out of bounds
(undefined in JavaScript, poisoning the result with NaN) instead of a
well-defined bilinear interpolation. -/
theorem terrain_height_top_edge_out_of_bounds (H : ℕ → ℚ) :
    getTerrainHeight H 500 500 = none := by
  unfold getTerrainHeight
  rw [if_neg (by unfold terrainSize; norm_num)]
  have hfl : ⌊((500 : ℚ) + terrainSize / 2) / terrainSize * (gridSize : ℚ)⌋ = 200 := by
    unfold terrainSize gridSize
    norm_num
  simp only [hfl]
  have htn : (200 : ℤ).toNat = 200 := rfl
  simp only [htn]
  have h1 : heightSample H (200 * vertexPerRow + 200) = some (H (200 * vertexPerRow + 200)) := by
    unfold heightSample numVerts vertexPerRow gridSize
    norm_num
  have h2 : heightSample H (200 * vertexPerRow + (200 + 1)) = none := by
    unfold heightSample numVerts vertexPerRow gridSize
    norm_num
  simp only [h1, h2]

/-- C8: the slope factor and speed multiplier used by the per-frame speed
update: uphill the factor is the cube of the clamped normalized steepness
and the multiplier is 1 minus 0.95 times the factor; downhill the factor is
the clamped normalized drop used linearly and the multiplier is 1 plus 0.4
times the factor; on flat ground the multiplier is 1. -/
theorem slope_effect_formula (hd : ℚ) :
    (0 < hd → slopeFactorOf hd = (min hd 3 / 3) ^ 3 ∧
      slopeEffectOf hd = 1 - (min hd 3 / 3) ^ 3 * (95 / 100)) ∧
    (hd < 0 → slopeFactorOf hd = min (-hd) 4 / 4 ∧
      slopeEffectOf hd = 1 + min (-hd) 4 / 4 * (4 / 10)) ∧
    (hd = 0 → slopeEffectOf hd = 1) := by
  refine ⟨fun h => ?_, fun h => ?_, fun h => ?_⟩
  · have hf : slopeFactorOf hd = (min hd 3 / 3) ^ 3 := by
      unfold slopeFactorOf
      rw [if_pos h]
      ring
    refine ⟨hf, ?_⟩
    unfold slopeEffectOf
    rw [if_pos h, hf]
  · have hf : slopeFactorOf hd = min (-hd) 4 / 4 := by
      unfold slopeFactorOf
      rw [if_neg (by linarith), if_pos h, abs_of_neg h]
    refine ⟨hf, ?_⟩
    unfold slopeEffectOf
    rw [if_neg (by linarith), if_pos h, hf]
  · subst h
    unfold slopeEffectOf
    norm_num

/-- Witness for C8 at the concrete slopes 1 (uphill), -1 (downhill) and 0
(flat). -/
theorem slope_effect_formula_witness :
    ((0 : ℚ) < 1 ∧
      (slopeFactorOf 1 = (min (1 : ℚ) 3 / 3) ^ 3 ∧
        slopeEffectOf 1 = 1 - (min (1 : ℚ) 3 / 3) ^ 3 * (95 / 100))) ∧
    ((-1 : ℚ) < 0 ∧
      (slopeFactorOf (-1) = min (-(-1) : ℚ) 4 / 4 ∧
        slopeEffectOf (-1) = 1 + min (-(-1) : ℚ) 4 / 4 * (4 / 10))) ∧
    slopeEffectOf 0 = 1 :=
  ⟨⟨by norm_num, (slope_effect_formula 1).1 (by norm_num)⟩,
   ⟨by norm_num, (slope_effect_formula (-1)).2.1 (by norm_num)⟩,
   (slope_effect_formula 0).2.2 rfl⟩

/-- C1: whenever a grounded frame with the wheelie input held leaves the
wheelie angle above the critical threshold of 60 degrees (pi / 3), the state
is WipingOut in that same frame; and from any state inside a wipeout, the
first frame at which the accumulated wipeout time reaches 2 seconds
respawns: wipeout and jumping are off, the wipeout timer, score and speed
are zeroed and the bicycle stands at the spawn point, while every earlier
frame stays in the wipeout state. -/
theorem wheelie_critical_wipeout_respawn (P : Params) (O : Oracle)
    (inp : Input) (dt : ℚ) (s : GameState) :
    (s.isWipingOut = false → s.isWheelieMode = true → s.isJumping = false →
      CRITICAL_WHEELIE_ANGLE < ((updateBicycle P O inp dt s).1).wheelieAngle →
      ((updateBicycle P O inp dt s).1).isWipingOut = true) ∧
    (s.isWipingOut = true → 2 ≤ s.wipeOutTime + dt →
      ((updateBicycle P O inp dt s).1).isWipingOut = false ∧
      ((updateBicycle P O inp dt s).1).isJumping = false ∧
      ((updateBicycle P O inp dt s).1).wipeOutTime = 0 ∧
      ((updateBicycle P O inp dt s).1).playerScore = 0 ∧
      ((updateBicycle P O inp dt s).1).gameSpeed = 0 ∧
      ((updateBicycle P O inp dt s).1).posX = P.spawnX ∧
      ((updateBicycle P O inp dt s).1).posZ = P.spawnZ) ∧
    (s.isWipingOut = true → s.wipeOutTime + dt < 2 →
      ((updateBicycle P O inp dt s).1).isWipingOut = true) := by
  refine ⟨fun hw hm hj hcrit => ?_, fun hw ht => ?_, fun hw ht => ?_⟩
  · have hbody : (updateBicycle P O inp dt s).1 = updateBicycleRun P O inp dt s := by
      unfold updateBicycle
      rw [if_neg (by simp [hw])]
    rw [hbody] at hcrit ⊢
    unfold updateBicycleRun at hcrit ⊢
    dsimp only at hcrit ⊢
    rw [checkCollisions_isWheelieMode, hm, if_pos rfl] at hcrit ⊢
    split at hcrit
    · rename_i hyes
      rw [if_pos hyes]
    · rename_i hnc
      rw [jumpAndMove_wheelieAngle] at hcrit
      dsimp only at hcrit
      exact absurd hcrit hnc
  · have hbody : (updateBicycle P O inp dt s).1 =
        respawnBicycle P { s with isWipingOut := false, wipeOutTime := 0 } := by
      unfold updateBicycle
      rw [if_pos (by simp [hw])]
      dsimp only
      unfold updateWipeOutAnimation
      dsimp only
      rw [if_neg (by linarith), if_neg (by linarith)]
    rw [hbody]
    dsimp only [respawnBicycle]
    exact ⟨rfl, rfl, rfl, rfl, rfl, rfl, rfl⟩
  · unfold updateBicycle
    rw [if_pos (by simp [hw])]
    dsimp only
    unfold updateWipeOutAnimation
    dsimp only
    repeat' split
    all_goals exact hw

/-- Witness for C1: the concrete wipeout state at 1.9 s with a 0.2 s frame
respawns with score 0 and speed 0 at the spawn point. -/
theorem wheelie_critical_wipeout_respawn_witness :
    ((updateBicycle paramsA oracleA inputA (1 / 5) stateWipe).1).isWipingOut = false ∧
    ((updateBicycle paramsA oracleA inputA (1 / 5) stateWipe).1).isJumping = false ∧
    ((updateBicycle paramsA oracleA inputA (1 / 5) stateWipe).1).wipeOutTime = 0 ∧
    ((updateBicycle paramsA oracleA inputA (1 / 5) stateWipe).1).playerScore = 0 ∧
    ((updateBicycle paramsA oracleA inputA (1 / 5) stateWipe).1).gameSpeed = 0 ∧
    ((updateBicycle paramsA oracleA inputA (1 / 5) stateWipe).1).posX = paramsA.spawnX ∧
    ((updateBicycle paramsA oracleA inputA (1 / 5) stateWipe).1).posZ = paramsA.spawnZ :=
  (wheelie_critical_wipeout_respawn paramsA oracleA inputA (1 / 5) stateWipe).2.1
    rfl (by show (2 : ℚ) ≤ 19 / 10 + 1 / 5; norm_num)

/-- C3: with no active cooldown and the reentrancy flag clear, a moving
vehicle closer to a tree (of positive radius within the 20-unit query
range) than the radius sum gets, in one collision-check call, speed exactly
0 and a live 1.5 second cooldown; and while the cooldown is positive every
collision check against any obstacle list reports no collision. -/
theorem tree_collision_stops_and_cooldown (O : Oracle) (s : GameState)
    (ob : Obstacle) :
    (ob.kind = ObstacleKind.tree → 0 < ob.collisionRadius →
      ob.collisionRadius ≤ 19 →
      s.collisionCooldown ≤ 0 → s.collisionOccurred = false →
      0 < s.gameSpeed →
      planarDistSq s.posX s.posZ ob.posX ob.posZ <
        (1 + ob.collisionRadius) * (1 + ob.collisionRadius) →
      (checkCollisions O [ob] s).2 = true ∧
      (checkCollisions O [ob] s).1.gameSpeed = 0 ∧
      (checkCollisions O [ob] s).1.collisionCooldown = 3 / 2) ∧
    (0 < s.collisionCooldown → ∀ obs : List Obstacle,
      (checkCollisions O obs s).2 = false) := by
  constructor
  · intro hk hr hr19 hcool hocc hsp hdist
    have hq : ¬(400 : ℚ) < planarDistSq s.posX s.posZ ob.posX ob.posZ := by
      push_neg
      nlinarith
    have hco : (checkCollisions O [ob] s) = (handleCollision O ob s, true) := by
      unfold checkCollisions
      rw [if_neg (not_lt.mpr hcool)]
      unfold scanObstacles
      dsimp only
      rw [if_neg hq]
      rw [hk]
      dsimp only
      rw [if_neg (ne_of_gt hr)]
      rw [if_pos ⟨by linarith, hdist⟩]
    rw [hco]
    refine ⟨rfl, ?_⟩
    unfold handleCollision
    rw [if_neg (by simp [hocc])]
    dsimp only
    rw [hk]
    dsimp only
    split <;> exact ⟨rfl, rfl⟩
  · intro hc obs
    unfold checkCollisions
    rw [if_pos hc]

/-- Witness for C3: the concrete moving state at the origin against the
tree one unit ahead stops dead with the cooldown armed; with the cooldown
at 1.5 the next check against the same tree reports no collision. -/
theorem tree_collision_stops_and_cooldown_witness :
    ((checkCollisions oracleA [treeA] stateA).2 = true ∧
      (checkCollisions oracleA [treeA] stateA).1.gameSpeed = 0 ∧
      (checkCollisions oracleA [treeA] stateA).1.collisionCooldown = 3 / 2) ∧
    (checkCollisions oracleA [treeA]
      { stateA with collisionCooldown := 3 / 2 }).2 = false :=
  ⟨(tree_collision_stops_and_cooldown oracleA stateA treeA).1
      rfl (by norm_num [treeA]) (by norm_num [treeA])
      (le_refl 0) rfl (by norm_num [stateA, initialState, paramsA])
      (by norm_num [planarDistSq, stateA, initialState, paramsA, treeA]),
   (tree_collision_stops_and_cooldown oracleA
      { stateA with collisionCooldown := 3 / 2 } treeA).2
      (by norm_num) [treeA]⟩

theorem preFrame_isWipingOut (P : Params) (inp : Input) (s : GameState) :
    (preFrame P inp s).isWipingOut = s.isWipingOut := by
  unfold preFrame
  dsimp only
  repeat' split
  all_goals dsimp only [respawnBicycle]
  all_goals rfl

theorem preFrame_pos (P : Params) (inp : Input) (s : GameState)
    (hres : inp.respawnKey = false) :
    (preFrame P inp s).posX = s.posX ∧ (preFrame P inp s).posZ = s.posZ := by
  unfold preFrame
  dsimp only
  rw [if_neg (by simp [hres])]
  split <;> exact ⟨rfl, rfl⟩

theorem checkObjectiveCollision_pos (P : Params) (s : GameState) :
    (checkObjectiveCollision P s).posX = s.posX ∧
    (checkObjectiveCollision P s).posZ = s.posZ := by
  unfold checkObjectiveCollision
  split <;> exact ⟨rfl, rfl⟩

/-- C6 fails on the code: updateBicycle runs checkCollisions before this
frame's position update, so the collision detector reads the start-of-frame
position, not the provisionally moved one.  At the concrete rolling state
(speed 1/2, one 1/60 s frame, flat ground, no obstacles) the detector read
position (0, 0) while the frame's updated position is (0, -299/600). -/
theorem collision_check_order_cex :
    ¬((animateFrame paramsA oracleA inputA (1 / 60) stateA).2.collisionCheckPos =
      some ((animateFrame paramsA oracleA inputA (1 / 60) stateA).1.posX,
        (animateFrame paramsA oracleA inputA (1 / 60) stateA).1.posZ)) := by
  have h1 : (animateFrame paramsA oracleA inputA (1 / 60) stateA).2.collisionCheckPos =
      some (0, 0) := by
    show (updateBicycle paramsA oracleA inputA (1 / 60)
      (preFrame paramsA inputA stateA)).2 = some (0, 0)
    norm_num [updateBicycle, preFrame, stateA, initialState, paramsA, inputA,
      respawnBicycle]
  have h2 : (animateFrame paramsA oracleA inputA (1 / 60) stateA).1.posZ =
      -(299 / 600) := by
    show (checkObjectiveCollision paramsA (updateBicycle paramsA oracleA inputA
      (1 / 60) (preFrame paramsA inputA stateA)).1).posZ = -(299 / 600)
    norm_num [updateBicycle, updateBicycleRun, checkCollisions, scanObstacles,
      speedUpdate, steerUpdate, leanUpdate, slopeSampleDiff, farSlopeSampleDiff,
      slopeEffectOf, slopeFactorOf, jumpAndMove, preFrame, respawnBicycle,
      checkObjectiveCollision, stateA, initialState, paramsA, inputA, oracleA,
      MAX_SPEED, SPEED_CAP, BRAKE_FORCE, GRAVITY, JUMP_FORCE, planarDistSq,
      MAX_SAFE_WHEELIE_ANGLE, CRITICAL_WHEELIE_ANGLE, piQ, WHEELIE_DIFFICULTY,
      wheelieIncrement]
  intro h
  rw [h1] at h
  have h4 := Option.some.inj h
  have h5 := congrArg Prod.snd h4
  dsimp only at h5
  rw [h2] at h5
  norm_num at h5

/-- C6 amended: within one frame, collision detection runs at the start of
updateBicycle, before this frame's position update, so the detector sees
the previous frame's end-of-frame (already collision-corrected) position;
objective-pickup detection runs after updateBicycle and sees this frame's
post-collision, post-movement position.  Stated for frames that are not in
a wipeout (where the check is skipped) and without the respawn key (which
teleports before the check). -/
theorem collision_before_move_objective_after (P : Params) (O : Oracle)
    (inp : Input) (dt : ℚ) (s : GameState)
    (hw : s.isWipingOut = false) (hres : inp.respawnKey = false) :
    (animateFrame P O inp dt s).2.collisionCheckPos = some (s.posX, s.posZ) ∧
    (animateFrame P O inp dt s).2.objectiveCheckPos =
      ((animateFrame P O inp dt s).1.posX,
       (animateFrame P O inp dt s).1.posZ) := by
  have hpre := preFrame_pos P inp s hres
  have hpw : (preFrame P inp s).isWipingOut = false := by
    rw [preFrame_isWipingOut]
    exact hw
  constructor
  · show (updateBicycle P O inp dt (preFrame P inp s)).2 = some (s.posX, s.posZ)
    unfold updateBicycle
    rw [if_neg (by simp [hpw])]
    rw [hpre.1, hpre.2]
  · have hobj := checkObjectiveCollision_pos P
      (updateBicycle P O inp dt (preFrame P inp s)).1
    show ((updateBicycle P O inp dt (preFrame P inp s)).1.posX,
          (updateBicycle P O inp dt (preFrame P inp s)).1.posZ) =
      ((checkObjectiveCollision P (updateBicycle P O inp dt (preFrame P inp s)).1).posX,
       (checkObjectiveCollision P (updateBicycle P O inp dt (preFrame P inp s)).1).posZ)
    rw [hobj.1, hobj.2]

/-- Witness for the amended C6 at the concrete rolling state. -/
theorem collision_before_move_objective_after_witness :
    (animateFrame paramsA oracleA inputA (1 / 60) stateA).2.collisionCheckPos =
      some (stateA.posX, stateA.posZ) ∧
    (animateFrame paramsA oracleA inputA (1 / 60) stateA).2.objectiveCheckPos =
      ((animateFrame paramsA oracleA inputA (1 / 60) stateA).1.posX,
       (animateFrame paramsA oracleA inputA (1 / 60) stateA).1.posZ) :=
  collision_before_move_objective_after paramsA oracleA inputA (1 / 60) stateA
    rfl rfl

theorem distToSegSq_before_start (px pz ax az bx bz : ℚ)
    (h : segDot px pz ax az bx bz ≤ 0) :
    distToSegSq px pz ax az bx bz = planarDistSq px pz ax az := by
  unfold segDot at h
  unfold distToSegSq planarDistSq
  dsimp only
  repeat' split
  all_goals first | (exfalso; linarith) | ring

theorem distToSegSq_past_end (px pz ax az bx bz : ℚ)
    (hdd : planarDistSq bx bz ax az ≠ 0)
    (h : planarDistSq bx bz ax az ≤ segDot px pz ax az bx bz) :
    distToSegSq px pz ax az bx bz = planarDistSq px pz bx bz := by
  unfold segDot at h
  unfold planarDistSq at hdd h
  have hdpos : 0 < (bx - ax) * (bx - ax) + (bz - az) * (bz - az) := by
    rcases lt_or_eq_of_le (by nlinarith [sq_nonneg (bx - ax), sq_nonneg (bz - az)] :
      (0 : ℚ) ≤ (bx - ax) * (bx - ax) + (bz - az) * (bz - az)) with h1 | h1
    · exact h1
    · exact absurd h1.symm hdd
  unfold distToSegSq planarDistSq
  dsimp only
  repeat' split
  all_goals first | (exfalso; linarith) | ring

theorem distToSegSq_perp (px pz ax az bx bz : ℚ)
    (hdd : planarDistSq bx bz ax az ≠ 0)
    (h1 : 0 < segDot px pz ax az bx bz)
    (h2 : segDot px pz ax az bx bz < planarDistSq bx bz ax az) :
    distToSegSq px pz ax az bx bz =
      planarDistSq px pz ax az -
        segDot px pz ax az bx bz ^ 2 / planarDistSq bx bz ax az := by
  unfold segDot at h1 h2 ⊢
  unfold planarDistSq at hdd h2 ⊢
  unfold distToSegSq
  dsimp only
  repeat' split
  all_goals first | (exfalso; linarith) | ring

/-- C7: against a log (segment with unit direction and positive length,
positive collision radius, no active cooldown, within the 20-unit query
range), a vehicle whose projection falls strictly inside the segment and
whose perpendicular distance is below the radius sum registers a collision;
and a vehicle whose projection falls beyond either endpoint and which is at
least the radius sum away from that endpoint registers none, wherever it
stands relative to the segment midpoint. -/
theorem log_segment_collision (O : Oracle) (s : GameState) (ob : Obstacle)
    (hk : ob.kind = ObstacleKind.log)
    (hu : ob.dirX ^ 2 + ob.dirZ ^ 2 = 1)
    (hl : 0 < ob.length) (hr : 0 < ob.collisionRadius)
    (hcool : s.collisionCooldown ≤ 0) :
    (planarDistSq s.posX s.posZ ob.posX ob.posZ ≤ 400 →
      0 < segDot s.posX s.posZ (logStartX ob) (logStartZ ob)
        (logEndX ob) (logEndZ ob) →
      segDot s.posX s.posZ (logStartX ob) (logStartZ ob)
          (logEndX ob) (logEndZ ob) <
        planarDistSq (logEndX ob) (logEndZ ob) (logStartX ob) (logStartZ ob) →
      planarDistSq s.posX s.posZ (logStartX ob) (logStartZ ob) -
          segDot s.posX s.posZ (logStartX ob) (logStartZ ob)
              (logEndX ob) (logEndZ ob) ^ 2 /
            planarDistSq (logEndX ob) (logEndZ ob) (logStartX ob) (logStartZ ob) <
        (1 + ob.collisionRadius) * (1 + ob.collisionRadius) →
      (checkCollisions O [ob] s).2 = true) ∧
    (((segDot s.posX s.posZ (logStartX ob) (logStartZ ob)
          (logEndX ob) (logEndZ ob) ≤ 0 ∧
        (1 + ob.collisionRadius) * (1 + ob.collisionRadius) ≤
          planarDistSq s.posX s.posZ (logStartX ob) (logStartZ ob)) ∨
      (planarDistSq (logEndX ob) (logEndZ ob) (logStartX ob) (logStartZ ob) ≤
          segDot s.posX s.posZ (logStartX ob) (logStartZ ob)
            (logEndX ob) (logEndZ ob) ∧
        (1 + ob.collisionRadius) * (1 + ob.collisionRadius) ≤
          planarDistSq s.posX s.posZ (logEndX ob) (logEndZ ob))) →
      (checkCollisions O [ob] s).2 = false) := by
  have hdd0 : planarDistSq (logEndX ob) (logEndZ ob) (logStartX ob) (logStartZ ob) ≠ 0 := by
    have he : planarDistSq (logEndX ob) (logEndZ ob) (logStartX ob) (logStartZ ob) =
        (ob.dirX ^ 2 + ob.dirZ ^ 2) * ob.length ^ 2 := by
      unfold planarDistSq logStartX logStartZ logEndX logEndZ
      ring
    rw [he, hu, one_mul]
    exact pow_ne_zero 2 (ne_of_gt hl)
  constructor
  · intro hquick hp1 hp2 hp3
    unfold checkCollisions
    rw [if_neg (not_lt.mpr hcool)]
    unfold scanObstacles
    dsimp only
    rw [if_neg (not_lt.mpr hquick)]
    rw [hk]
    dsimp only
    rw [if_neg (ne_of_gt hr)]
    rw [distToSegSq_perp _ _ _ _ _ _ hdd0 hp1 hp2]
    rw [if_pos ⟨by linarith, hp3⟩]
  · intro hmiss
    unfold checkCollisions
    rw [if_neg (not_lt.mpr hcool)]
    unfold scanObstacles
    dsimp only
    by_cases hq : (400 : ℚ) < planarDistSq s.posX s.posZ ob.posX ob.posZ
    · rw [if_pos hq]
      rfl
    · rw [if_neg hq]
      rw [hk]
      dsimp only
      rw [if_neg (ne_of_gt hr)]
      rcases hmiss with ⟨hd1, hd2⟩ | ⟨hd1, hd2⟩
      · rw [distToSegSq_before_start _ _ _ _ _ _ hd1]
        rw [if_neg (by rintro ⟨hq1, hq2⟩; linarith)]
        rfl
      · rw [distToSegSq_past_end _ _ _ _ _ _ hdd0 hd1]
        rw [if_neg (by rintro ⟨hq1, hq2⟩; linarith)]
        rfl

/-- Witness for C7: against the concrete log (center at the origin,
direction (1, 0), length 4, radius 1/2), the vehicle at (0, 1) at the
perpendicular foot collides and the vehicle at (-4, 0), past the start
endpoint, does not. -/
theorem log_segment_collision_witness :
    (checkCollisions oracleA [logA] stateLogHit).2 = true ∧
    (checkCollisions oracleA [logA] stateLogMiss).2 = false :=
  ⟨(log_segment_collision oracleA stateLogHit logA rfl
      (by norm_num [logA]) (by norm_num [logA]) (by norm_num [logA])
      (le_refl 0)).1
      (by norm_num [planarDistSq, stateLogHit, initialState, paramsA, logA])
      (by norm_num [segDot, logStartX, logStartZ, logEndX, logEndZ,
        stateLogHit, initialState, paramsA, logA])
      (by norm_num [segDot, planarDistSq, logStartX, logStartZ, logEndX,
        logEndZ, stateLogHit, initialState, paramsA, logA])
      (by norm_num [segDot, planarDistSq, logStartX, logStartZ, logEndX,
        logEndZ, stateLogHit, initialState, paramsA, logA]),
   (log_segment_collision oracleA stateLogMiss logA rfl
      (by norm_num [logA]) (by norm_num [logA]) (by norm_num [logA])
      (le_refl 0)).2
      (Or.inl ⟨by norm_num [segDot, logStartX, logStartZ, logEndX, logEndZ,
          stateLogMiss, initialState, paramsA, logA],
        by norm_num [planarDistSq, logStartX, logStartZ, stateLogMiss,
          initialState, paramsA, logA]⟩)⟩

theorem getTerrainHeight_eval (H : ℕ → ℚ) (ix iz : ℕ) (x z : ℚ)
    (hix : ix ≤ 199) (hiz : iz ≤ 199)
    (hx1 : -500 + (ix : ℚ) * 5 ≤ x) (hx2 : x < -500 + ((ix : ℚ) + 1) * 5)
    (hz1 : -500 + (iz : ℚ) * 5 ≤ z) (hz2 : z < -500 + ((iz : ℚ) + 1) * 5) :
    getTerrainHeight H x z = some (bilinearCell H ix iz x z) := by
  have hixq : (ix : ℚ) ≤ 199 := by exact_mod_cast hix
  have hizq : (iz : ℚ) ≤ 199 := by exact_mod_cast hiz
  have hixq0 : (0 : ℚ) ≤ (ix : ℚ) := by positivity
  have hizq0 : (0 : ℚ) ≤ (iz : ℚ) := by positivity
  have hxb1 : (-500 : ℚ) ≤ x := by nlinarith
  have hxb2 : x < 500 := by nlinarith
  have hzb1 : (-500 : ℚ) ≤ z := by nlinarith
  have hzb2 : z < 500 := by nlinarith
  have hfx : ⌊(x + terrainSize / 2) / terrainSize * (gridSize : ℚ)⌋ = (ix : ℤ) := by
    rw [Int.floor_eq_iff]
    unfold terrainSize gridSize
    push_cast
    constructor <;> nlinarith
  have hfz : ⌊(z + terrainSize / 2) / terrainSize * (gridSize : ℚ)⌋ = (iz : ℤ) := by
    rw [Int.floor_eq_iff]
    unfold terrainSize gridSize
    push_cast
    constructor <;> nlinarith
  have hixn : (⌊(x + terrainSize / 2) / terrainSize * (gridSize : ℚ)⌋).toNat = ix := by
    rw [hfx]
    simp
  have hizn : (⌊(z + terrainSize / 2) / terrainSize * (gridSize : ℚ)⌋).toNat = iz := by
    rw [hfz]
    simp
  have hv1 : iz * vertexPerRow + ix < numVerts := by
    unfold numVerts vertexPerRow gridSize
    omega
  have hv2 : iz * vertexPerRow + (ix + 1) < numVerts := by
    unfold numVerts vertexPerRow gridSize
    omega
  have hv3 : (iz + 1) * vertexPerRow + ix < numVerts := by
    unfold numVerts vertexPerRow gridSize
    omega
  have hv4 : (iz + 1) * vertexPerRow + (ix + 1) < numVerts := by
    unfold numVerts vertexPerRow gridSize
    omega
  unfold getTerrainHeight
  rw [if_neg (by unfold terrainSize; rintro (h | h | h | h) <;> linarith)]
  dsimp only
  rw [hixn, hizn]
  unfold heightSample
  rw [if_pos hv1, if_pos hv2, if_pos hv3, if_pos hv4]
  rfl

theorem bilinearCell_x_edge (H : ℕ → ℚ) (ix iz : ℕ) (z : ℚ) :
    bilinearCell H ix iz (-500 + ((ix : ℚ) + 1) * 5) z =
    bilinearCell H (ix + 1) iz (-500 + ((ix : ℚ) + 1) * 5) z := by
  unfold bilinearCell vertexPerRow gridSize terrainSize
  dsimp only
  simp only [Nat.add_assoc]
  push_cast
  ring

theorem bilinearCell_z_edge (H : ℕ → ℚ) (ix iz : ℕ) (x : ℚ) :
    bilinearCell H ix iz x (-500 + ((iz : ℚ) + 1) * 5) =
    bilinearCell H ix (iz + 1) x (-500 + ((iz : ℚ) + 1) * 5) := by
  unfold bilinearCell vertexPerRow gridSize terrainSize
  dsimp only
  simp only [Nat.add_assoc]
  push_cast
  ring

/-- C9: the height query is continuous across interior grid-cell
boundaries: at a point lying exactly on an interior vertical cell edge
(x at the boundary between cell columns ix and ix + 1) the value the code
returns equals the bilinear interpolation of both adjacent cells, and
likewise across interior horizontal edges, so the two cell interpolations
agree on the shared edge and no discontinuity arises from the floor-based
cell addressing. -/
theorem terrain_height_edge_continuity (H : ℕ → ℚ) (ix iz : ℕ) (x z : ℚ) :
    (ix ≤ 198 → iz ≤ 199 →
      x = -500 + ((ix : ℚ) + 1) * 5 →
      -500 + (iz : ℚ) * 5 ≤ z → z < -500 + ((iz : ℚ) + 1) * 5 →
      getTerrainHeight H x z = some (bilinearCell H ix iz x z) ∧
      getTerrainHeight H x z = some (bilinearCell H (ix + 1) iz x z)) ∧
    (ix ≤ 199 → iz ≤ 198 →
      -500 + (ix : ℚ) * 5 ≤ x → x < -500 + ((ix : ℚ) + 1) * 5 →
      z = -500 + ((iz : ℚ) + 1) * 5 →
      getTerrainHeight H x z = some (bilinearCell H ix iz x z) ∧
      getTerrainHeight H x z = some (bilinearCell H ix (iz + 1) x z)) := by
  constructor
  · intro hix hiz hx hz1 hz2
    have hright : getTerrainHeight H x z = some (bilinearCell H (ix + 1) iz x z) := by
      apply getTerrainHeight_eval H (ix + 1) iz x z (by omega) hiz
      · push_cast
        linarith [hx.ge]
      · push_cast
        rw [hx]
        linarith
      · exact hz1
      · exact hz2
    refine ⟨?_, hright⟩
    rw [hright, hx, bilinearCell_x_edge]
  · intro hix hiz hx1 hx2 hz
    have hdown : getTerrainHeight H x z = some (bilinearCell H ix (iz + 1) x z) := by
      apply getTerrainHeight_eval H ix (iz + 1) x z hix (by omega) hx1 hx2
      · push_cast
        linarith [hz.ge]
      · push_cast
        rw [hz]
        linarith
    refine ⟨?_, hdown⟩
    rw [hdown, hz, bilinearCell_z_edge]

/-- Witness for C9 at the concrete interior edge x = -495 (between cell
columns 0 and 1) with z = -498 inside cell row 0, and at the interior edge
z = -495 with x = -498, on the heightfield storing each vertex its own
index. -/
theorem terrain_height_edge_continuity_witness :
    (getTerrainHeight (fun v => (v : ℚ)) (-495) (-498) =
        some (bilinearCell (fun v => (v : ℚ)) 0 0 (-495) (-498)) ∧
      getTerrainHeight (fun v => (v : ℚ)) (-495) (-498) =
        some (bilinearCell (fun v => (v : ℚ)) 1 0 (-495) (-498))) ∧
    (getTerrainHeight (fun v => (v : ℚ)) (-498) (-495) =
        some (bilinearCell (fun v => (v : ℚ)) 0 0 (-498) (-495)) ∧
      getTerrainHeight (fun v => (v : ℚ)) (-498) (-495) =
        some (bilinearCell (fun v => (v : ℚ)) 0 1 (-498) (-495))) :=
  ⟨(terrain_height_edge_continuity (fun v => (v : ℚ)) 0 0 (-495) (-498)).1
      (by norm_num) (by norm_num) (by norm_num) (by norm_num) (by norm_num),
   (terrain_height_edge_continuity (fun v => (v : ℚ)) 0 0 (-498) (-495)).2
      (by norm_num) (by norm_num) (by norm_num) (by norm_num) (by norm_num)⟩

end MTBGame
